import Mathlib

/-!
# Verification of the media-tracking MCP server

Shallow embedding of the `mcp-movie-finder` repository:

* the SQLite-backed `MediaDatabase` (schema `media` + per-kind extension
  tables, `getMedia`, `findMediaByTitle`, `updateMedia`, `addMedia`,
  `getPreferenceAnalysis`) from `src/db/index.ts` (media variant);
* the stdio tool dispatcher (`search_and_add_movie`, `mark_as_watched`,
  `list_media`, ... handlers) from the stdio server source;
* the MySQL adapter's `addMovie` from `unified-database.ts`;
* the HTTP `/mcp` POST endpoint with its bearer-token gate.

JavaScript runtime behaviour is modelled explicitly: `undefined`/absent
values are `Option.none`; JS truthiness checks (`if (x)`) on strings treat
`""` as false and on numbers treat `0` as false; `Map` preserves insertion
order (association lists); `Array.prototype.sort` is a stable sort
(ES2019), modelled by a stable insertion sort.
-/

namespace MediaRec

/-- JS truthiness of an optional string (`undefined`, `null` and `""` are falsy). -/
def strTruthy : Option String → Bool
  | none => false
  | some s => s ≠ ""

/-- JS truthiness of an optional number (`undefined`, `null` and `0` are falsy). -/
def natTruthy : Option Nat → Bool
  | none => false
  | some n => n ≠ 0

/-- JS truthiness of an optional integer (year fields). -/
def intTruthy : Option Int → Bool
  | none => false
  | some n => n ≠ 0

/-- JS `a || b` on optional numbers, as JS evaluates it (`a` falsy picks `b`). -/
def jsOrInt (a b : Option Int) : Option Int :=
  if intTruthy a then a else b

/-- Character-level whitespace test used by `trim`/JSON whitespace skipping. -/
def isWs (c : Char) : Bool :=
  c = ' ' ∨ c = '\t' ∨ c = '\n' ∨ c = '\r'

/-- Drop leading whitespace characters. -/
def skipWs (cs : List Char) : List Char :=
  cs.dropWhile isWs

/-- JS `String.prototype.trim` on a character list. -/
def trimChars (cs : List Char) : List Char :=
  ((cs.dropWhile isWs).reverse.dropWhile isWs).reverse

/-- JS `s.trim()`. -/
def jsTrim (s : String) : String :=
  String.mk (trimChars s.data)

/-- Split a character list at every occurrence of `sep` (JS `String.prototype.split`). -/
def splitAtChar (sep : Char) : List Char → List Char → List String
  | [], acc => [String.mk acc.reverse]
  | c :: cs, acc =>
    if c = sep then String.mk acc.reverse :: splitAtChar sep cs []
    else splitAtChar sep cs (c :: acc)

/-- JS `s.split(sep)` for a one-character separator. -/
def jsSplit (s : String) (sep : Char) : List String :=
  splitAtChar sep s.data []

/-- JS `s.includes(c)` for a single character. -/
def jsContainsChar (s : String) (c : Char) : Bool :=
  s.data.contains c

/-- Parse one JSON string literal: leading `"`, body without escapes, closing `"`.
Inputs containing a backslash are rejected (the stores at issue never escape). -/
def parseJsonString : List Char → Option (String × List Char)
  | '"' :: cs => go cs []
  | _ => none
where
  go : List Char → List Char → Option (String × List Char)
    | [], _ => none
    | '"' :: rest, acc => some (String.mk acc.reverse, rest)
    | '\\' :: _, _ => none
    | c :: rest, acc => go rest (c :: acc)

/-- Parse the comma-separated elements of a JSON array of strings, after the
opening bracket (fuel-driven; fuel bounds the number of elements). -/
def parseJsonElems : Nat → List Char → Option (List String)
  | 0, _ => none
  | fuel + 1, cs =>
    match parseJsonString (skipWs cs) with
    | none => none
    | some (s, rest) =>
      match skipWs rest with
      | ',' :: rest2 => (parseJsonElems fuel rest2).map (s :: ·)
      | ']' :: rest2 => if (skipWs rest2).isEmpty then some [s] else none
      | _ => none

/-- Model of `JSON.parse` restricted to arrays of unescaped strings: the only shape the
repository ever stores in the `genres` column (`JSON.stringify(list)`), and
the only shape whose parse both succeeds and survives the subsequent
`genres.forEach((genre: string) => ...)` without throwing.  Every other input
makes the analyzer fall through to its `catch` branch, which this function
signals with `none`. -/
def parseJsonStringList (s : String) : Option (List String) :=
  match skipWs s.data with
  | '[' :: rest =>
    match skipWs rest with
    | ']' :: rest2 => if (skipWs rest2).isEmpty then some [] else none
    | cs => parseJsonElems (cs.length + 1) cs
  | _ => none

/-- Lexicographic comparison of character lists (SQLite BINARY collation on
ASCII text, JS `<` on strings). -/
def charListLt : List Char → List Char → Bool
  | [], [] => false
  | [], _ :: _ => true
  | _ :: _, [] => false
  | a :: as, b :: bs => if a < b then true else if b < a then false else charListLt as bs

/-- String less-than via `charListLt`. -/
def strLtB (a b : String) : Bool :=
  charListLt a.data b.data

/-- Tests that `pat` is a prefix of `s` (character lists). -/
def leadsWith (pat s : List Char) : Bool :=
  match pat, s with
  | [], _ => true
  | _ :: _, [] => false
  | p :: ps, c :: cs => p = c && leadsWith ps cs

/-- Tests that `pat` occurs as a contiguous substring of `s`. -/
def containsSub (pat s : List Char) : Bool :=
  match s with
  | [] => pat.isEmpty
  | _ :: cs => leadsWith pat s || containsSub pat cs

/-- SQL `col LIKE '%pat%'` on a nullable text column: `NULL` never matches,
and SQLite's `LIKE` is case-insensitive on ASCII letters. -/
def sqlLikeContains (col : Option String) (pat : String) : Bool :=
  match col with
  | none => false
  | some s => containsSub (pat.data.map Char.toLower) (s.data.map Char.toLower)

/-! ## Data model

The `media` table joined with its per-kind extension row
(`movies.director` / `books.author` / `tv_shows.creator`), as returned by
`MediaDatabase.getMedia` (`with: { movie, book, tvShow }`).  Extension
columns that no claim touches (cast, runtime, external ids, ...) are not
carried. -/

/-- The `type` column: one media kind per item. -/
inductive MediaType
  | movie
  | book
  | tv_show
deriving DecidableEq, Repr

/-- One joined row: base `media` columns plus the creator column of the
kind-specific extension row. -/
structure MediaItem where
  id : String
  type : MediaType
  title : String
  year : Option Int := none
  watched : Bool := false
  rating : Option Nat := none
  dateWatched : Option String := none
  notes : Option String := none
  genres : Option String := none
  likedAspects : Option String := none
  dislikedAspects : Option String := none
  mood : Option String := none
  recommendationContext : Option String := none
  director : Option String := none
  author : Option String := none
  creator : Option String := none
deriving DecidableEq, Repr

/-- The persistent store: the rows of the `media` table (joined view). -/
abbrev Store := List MediaItem

/-! ## Stable sorting

`Array.prototype.sort` (ES2019) and the embedding of `ORDER BY` use a stable
sort.  `jsInsert bef a l` places `a` before the first element `b` with
`bef a b`; folding the input left-to-right therefore keeps the original
order of elements the comparator ties. -/

/-- Insert `a` into `l`, passing every element that is not strictly after `a`. -/
def jsInsert (bef : α → α → Bool) (a : α) : List α → List α
  | [] => [a]
  | b :: l => if bef a b then a :: b :: l else b :: jsInsert bef a l

/-- Stable sort: insert the elements in their original order. -/
def jsSortAcc (bef : α → α → Bool) (acc : List α) : List α → List α
  | [] => acc
  | x :: l => jsSortAcc bef (jsInsert bef x acc) l

/-- Stable sort of `l` by the strict "comes before" test `bef`. -/
def jsSort (bef : α → α → Bool) (l : List α) : List α :=
  jsSortAcc bef [] l

/-! ## MediaDatabase.getMedia -/

/-- The optional filters accepted by `MediaDatabase.getMedia`.  The source
also accepts `director`/`author` filter fields but builds no SQL condition
from them, so they are not carried here. -/
structure GetFilters where
  type : Option MediaType := none
  watchedOnly : Option Bool := none
  minRating : Option Nat := none
  genre : Option String := none
  year : Option Int := none
deriving Repr

/-- The conjunction of SQL conditions `getMedia` pushes: each `if (filters?.x)`
is a JS truthiness test, so `watchedOnly: false`, `minRating: 0` and
`year: 0` push no condition at all. -/
def passesFilters (f : GetFilters) (i : MediaItem) : Bool :=
  (match f.type with
   | some t => i.type = t
   | none => true) &&
  (if f.watchedOnly = some true then i.watched else true) &&
  (match f.minRating with
   | some n =>
     if n ≠ 0 then
       match i.rating with
       | some r => n ≤ r
       | none => false   -- SQL: rating >= n is NULL when rating IS NULL
     else true
   | none => true) &&
  (match f.genre with
   | some g => if g ≠ "" then sqlLikeContains i.genres g else true
   | none => true) &&
  (match f.year with
   | some y => if y ≠ 0 then i.year = some y else true
   | none => true)

/-- The `ORDER BY date_watched DESC, title ASC` clause under SQLite semantics: `NULL`
dates sort last in `DESC`; titles compare byte-wise. -/
def mediaBefore (a b : MediaItem) : Bool :=
  match a.dateWatched, b.dateWatched with
  | some da, some db_ => if da = db_ then strLtB a.title b.title else strLtB db_ da
  | some _, none => true
  | none, some _ => false
  | none, none => strLtB a.title b.title

/-- Model of `MediaDatabase.getMedia`: apply the pushed conditions, then the order-by. -/
def getMedia (store : Store) (f : GetFilters) : List MediaItem :=
  jsSort mediaBefore (store.filter (passesFilters f))

/-- Model of `MediaDatabase.findMediaByTitle`: exact title match, optional kind,
optional (truthy) year; `LIMIT 1` returns the first match. -/
def findMediaByTitle (store : Store) (title : String) (type : Option MediaType)
    (year : Option Int) : Option MediaItem :=
  (store.filter (fun i =>
    i.title = title &&
    (match type with
     | some t => i.type = t
     | none => true) &&
    (if intTruthy year then i.year = year else true))).head?

/-! ## Preference analysis (MediaDatabase.getPreferenceAnalysis) -/

/-- One `Map` value of the genre/creator frequency maps:
`{ count: number; totalRating: number }`. -/
structure Stats where
  count : Nat
  totalRating : Nat
deriving DecidableEq, Repr

/-- Insertion-ordered `Map.set`-with-increment: bump the entry for `k`
(adding `v` to its rating sum), or append a fresh entry at the end.
Mirrors `map.get(k) || {count:0,totalRating:0}; count++; totalRating += v;
map.set(k, ...)` with JS `Map` insertion-order semantics. -/
def upsert (m : List (String × Stats)) (k : String) (v : Nat) : List (String × Stats) :=
  match m with
  | [] => [(k, ⟨1, v⟩)]
  | (k', st) :: rest =>
    if k' = k then (k', ⟨st.count + 1, st.totalRating + v⟩) :: rest
    else (k', st) :: upsert rest k v

/-- Build the frequency map from a stream of `(token, ratingContribution)`
pairs. -/
def buildMap (ps : List (String × Nat)) : List (String × Stats) :=
  ps.foldl (fun m p => upsert m p.1 p.2) []

/-- The rating contribution of an item: `if (item.rating) totalRating +=
item.rating` adds the rating only when truthy, which coincides with adding
`0` for an absent (or zero) rating. -/
def ratingVal : Option Nat → Nat
  | some n => n
  | none => 0

/-- The genre tokens an item contributes: `JSON.parse` of the `genres` column
when it is an array of strings; otherwise the `catch` branch splits on commas
(trimming) when a comma is present, else the item contributes nothing. -/
def genreTokens (g : String) : List String :=
  match parseJsonStringList g with
  | some l => l
  | none => if jsContainsChar g ',' then (jsSplit g ',').map jsTrim else []

/-- Tokens of one item's (truthy) `genres` column. -/
def itemGenreTokens (i : MediaItem) : List String :=
  match i.genres with
  | none => []
  | some g => if g = "" then [] else genreTokens g

/-- One item's `(genreToken, ratingContribution)` pairs. -/
def itemTokenPairs (i : MediaItem) : List (String × Nat) :=
  (itemGenreTokens i).map (fun t => (t, ratingVal i.rating))

/-- The genre token stream over the whole consumed list (the nested
`forEach`). -/
def tokenPairs (items : List MediaItem) : List (String × Nat) :=
  (items.map itemTokenPairs).flatten

/-- Creator extraction: `director` for movies, `author` for books,
`creator` for TV shows, each guarded by JS truthiness. -/
def creatorOf (i : MediaItem) : Option String :=
  if i.type = .movie && strTruthy i.director then i.director
  else if i.type = .book && strTruthy i.author then i.author
  else if i.type = .tv_show && strTruthy i.creator then i.creator
  else none

/-- The creator token stream over the consumed list. -/
def creatorPairs (items : List MediaItem) : List (String × Nat) :=
  items.filterMap (fun i => (creatorOf i).map (fun c => (c, ratingVal i.rating)))

/-- Liked-aspect tokens of one item: truthy `likedAspects` split on commas
and trimmed. -/
def itemAspects (i : MediaItem) : List String :=
  match i.likedAspects with
  | none => []
  | some s => if s = "" then [] else (jsSplit s ',').map jsTrim

/-- All liked-aspect tokens of the consumed list. -/
def aspectTokens (items : List MediaItem) : List String :=
  (items.map itemAspects).flatten

/-- Insertion-ordered counting map for aspects. -/
def upsertCount (m : List (String × Nat)) (k : String) : List (String × Nat) :=
  match m with
  | [] => [(k, 1)]
  | (k', n) :: rest =>
    if k' = k then (k', n + 1) :: rest
    else (k', n) :: upsertCount rest k

/-- The `aspectCounts` map. -/
def countMap (ts : List String) : List (String × Nat) :=
  ts.foldl upsertCount []

/-- The average rating of a map entry, as a rational.  Used in statements;
the executable comparator below compares the same quantity by
cross-multiplication. -/
def avgQ (st : Stats) : ℚ :=
  (st.totalRating : ℚ) / (st.count : ℚ)

/-- The sort comparator `(a, b) => b.totalRating/b.count - a.totalRating/a.count`
(descending by average): `p` comes strictly before `q` iff
`p.avg > q.avg`, decided by cross-multiplication (entry counts are always
positive, so this is exactly the comparison of the two averages). -/
def avgBefore (p q : String × Stats) : Bool :=
  q.2.totalRating * p.2.count < p.2.totalRating * q.2.count

/-- The `.filter(count >= 2).sort(by avg desc).slice(0, 5)` pipeline over the genre map. -/
def favoriteGenreEntries (items : List MediaItem) : List (String × Stats) :=
  (jsSort avgBefore ((buildMap (tokenPairs items)).filter (fun p => 2 ≤ p.2.count))).take 5

/-- The `.filter(count >= 1).sort(by avg desc).slice(0, 5)` pipeline over the creator map. -/
def favoriteCreatorEntries (items : List MediaItem) : List (String × Stats) :=
  (jsSort avgBefore ((buildMap (creatorPairs items)).filter (fun p => 1 ≤ p.2.count))).take 5

/-- The `.filter(count >= 2).sort(by count desc).slice(0, 10)` pipeline over the aspect map. -/
def commonAspectEntries (items : List MediaItem) : List (String × Nat) :=
  (jsSort (fun p q => q.2 < p.2) ((countMap (aspectTokens items)).filter (fun p => 2 ≤ p.2))).take 10

/-- Number of consumed items with a truthy rating (`ratedItems`). -/
def ratedCount (items : List MediaItem) : Nat :=
  (items.filter (fun i => natTruthy i.rating)).length

/-- Sum of the truthy ratings (`totalRating`). -/
def ratingSum (items : List MediaItem) : Nat :=
  (items.map (fun i => ratingVal i.rating)).sum

/-- The result record of `getPreferenceAnalysis`. -/
structure PrefResult where
  favoriteGenres : List String
  favoriteCreators : List String
  averageRating : ℚ
  totalWatched : Nat
  commonLikedAspects : List String
deriving DecidableEq, Repr

/-- The body of `getPreferenceAnalysis` applied to the fetched consumed
list: early return of the all-empty record on an empty list, otherwise the
three ranked lists and the mean of the present ratings. -/
def analyzeWatched (watchedMedia : List MediaItem) : PrefResult :=
  if watchedMedia.length = 0 then
    ⟨[], [], 0, 0, []⟩
  else
    { favoriteGenres := (favoriteGenreEntries watchedMedia).map (·.1)
      favoriteCreators := (favoriteCreatorEntries watchedMedia).map (·.1)
      averageRating :=
        if 0 < ratedCount watchedMedia then
          (ratingSum watchedMedia : ℚ) / (ratedCount watchedMedia : ℚ)
        else 0
      totalWatched := watchedMedia.length
      commonLikedAspects := (commonAspectEntries watchedMedia).map (·.1) }

/-- Model of `MediaDatabase.getPreferenceAnalysis`: fetch the consumed subset
(`getMedia({ type, watchedOnly: true })`) and analyze it. -/
def getPreferenceAnalysis (store : Store) (type : Option MediaType) : PrefResult :=
  analyzeWatched (getMedia store { type := type, watchedOnly := some true })

/-! ## MediaDatabase.updateMedia -/

/-- Model of `Partial<Media>`: an update object; `none` is an absent (`undefined`)
key, which `updateMedia` skips.  The claims never update `id`, which is
therefore not carried. -/
structure MediaUpdate where
  title : Option String := none
  year : Option Int := none
  watched : Option Bool := none
  rating : Option Nat := none
  dateWatched : Option String := none
  notes : Option String := none
  genres : Option String := none
  likedAspects : Option String := none
  dislikedAspects : Option String := none
  mood : Option String := none
  recommendationContext : Option String := none
deriving DecidableEq, Repr

/-- Tests that `Object.keys(updateData).length > 0` is false: every key absent. -/
def MediaUpdate.isEmpty (u : MediaUpdate) : Bool :=
  u.title.isNone && u.year.isNone && u.watched.isNone && u.rating.isNone &&
  u.dateWatched.isNone && u.notes.isNone && u.genres.isNone &&
  u.likedAspects.isNone && u.dislikedAspects.isNone && u.mood.isNone &&
  u.recommendationContext.isNone

/-- Apply `UPDATE media SET ...` with the present keys to one row. -/
def applyUpdate (i : MediaItem) (u : MediaUpdate) : MediaItem :=
  { i with
    title := u.title.getD i.title
    year := if u.year.isSome then u.year else i.year
    watched := u.watched.getD i.watched
    rating := if u.rating.isSome then u.rating else i.rating
    dateWatched := if u.dateWatched.isSome then u.dateWatched else i.dateWatched
    notes := if u.notes.isSome then u.notes else i.notes
    genres := if u.genres.isSome then u.genres else i.genres
    likedAspects := if u.likedAspects.isSome then u.likedAspects else i.likedAspects
    dislikedAspects := if u.dislikedAspects.isSome then u.dislikedAspects else i.dislikedAspects
    mood := if u.mood.isSome then u.mood else i.mood
    recommendationContext :=
      if u.recommendationContext.isSome then u.recommendationContext else i.recommendationContext }

/-- The kind-specific partial update (`Partial<Movie | Book | TVShow>`),
restricted to the creator columns the model carries. -/
structure SpecificUpdate where
  director : Option String := none
  author : Option String := none
  creator : Option String := none
deriving DecidableEq, Repr

/-- Tests that `Object.keys(specificUpdates).length > 0` is false. -/
def SpecificUpdate.isEmpty (s : SpecificUpdate) : Bool :=
  s.director.isNone && s.author.isNone && s.creator.isNone

/-- Apply the kind-specific `UPDATE` (dispatched on the fetched item's
`type`) to one joined row. -/
def applySpecific (t : MediaType) (i : MediaItem) (s : SpecificUpdate) : MediaItem :=
  match t with
  | .movie => { i with director := if s.director.isSome then s.director else i.director }
  | .book => { i with author := if s.author.isSome then s.author else i.author }
  | .tv_show => { i with creator := if s.creator.isSome then s.creator else i.creator }

/-- Model of `MediaDatabase.getMediaById` (`findFirst where id = ...`). -/
def getMediaById (store : Store) (id : String) : Option MediaItem :=
  (store.filter (fun i => i.id = id)).head?

/-- Model of `MediaDatabase.updateMedia`: returns `false` untouched when the id is
absent; otherwise copies the present update keys, auto-stamps
`dateWatched := now` when `updates.watched` is truthy and the fetched item
has no (truthy) date yet — overwriting any caller-supplied date — runs the
`UPDATE`s only when non-empty, and returns `true`. -/
def updateMedia (store : Store) (id : String) (u : MediaUpdate)
    (su : Option SpecificUpdate) (dbNow : String) : Bool × Store :=
  match getMediaById store id with
  | none => (false, store)
  | some item =>
    let u' := if u.watched = some true && !(strTruthy item.dateWatched) then
        { u with dateWatched := some dbNow }
      else u
    let store1 :=
      if u'.isEmpty then store
      else store.map (fun i => if i.id = id then applyUpdate i u' else i)
    let store2 :=
      match su with
      | none => store1
      | some s =>
        if s.isEmpty then store1
        else store1.map (fun i => if i.id = id then applySpecific item.type i s else i)
    (true, store2)

/-! ## Tool handlers (stdio media server) -/

/-- Arguments of the `mark_as_watched` tool. -/
structure MarkArgs where
  id : String
  rating : Option Nat := none
  likedAspects : Option String := none
  dislikedAspects : Option String := none
  notes : Option String := none
deriving Repr

/-- The update object the `mark_as_watched` handler builds: always
`watched: true` AND an explicit `dateWatched: new Date().toISOString()`,
plus the truthy optional arguments. -/
def markAsWatchedUpdates (a : MarkArgs) (handlerNow : String) : MediaUpdate :=
  { watched := some true
    dateWatched := some handlerNow
    rating := if natTruthy a.rating then a.rating else none
    likedAspects := if strTruthy a.likedAspects then a.likedAspects else none
    dislikedAspects := if strTruthy a.dislikedAspects then a.dislikedAspects else none
    notes := if strTruthy a.notes then a.notes else none }

/-- The `mark_as_watched` handler body: build the update object, call
`updateMedia`, re-read the item for the confirmation text. -/
def markAsWatchedTool (store : Store) (a : MarkArgs) (handlerNow dbNow : String) :
    Store × String :=
  let r := updateMedia store a.id (markAsWatchedUpdates a handlerNow) none dbNow
  if !r.1 then (r.2, "Movie with ID " ++ a.id ++ " not found.")
  else
    let movie := getMediaById r.2 a.id
    let ratingText :=
      match movie with
      | some m =>
        if natTruthy m.rating then " and rated it " ++ toString (m.rating.getD 0) ++ "/10"
        else ""
      | none => ""
    let titleText := (movie.map (·.title)).getD "undefined"
    (r.2, "Marked \"" ++ titleText ++ "\" as watched" ++ ratingText ++
      ". This will now influence your recommendations!")

/-- Arguments of the `search_and_add_movie` tool.  Its input schema declares
`watched: { type: boolean, default: false }`; the MCP SDK does not apply
schema defaults, so an omitted argument arrives as `undefined` (`none`). -/
structure AddMovieArgs where
  title : String
  year : Option Int := none
  watched : Option Bool := none
  rating : Option Nat := none
  notes : Option String := none
  likedAspects : Option String := none
  dislikedAspects : Option String := none
  mood : Option String := none
  recommendationContext : Option String := none
deriving Repr

/-- The enrichment bundle returned by `movieService.enrichMovieData`,
restricted to the columns the model carries (`genres` is the
JSON-stringified genre list). -/
structure MovieMetadata where
  year : Option Int := none
  genres : Option String := none
  director : Option String := none
deriving Repr

/-- The `search_and_add_movie` handler body: duplicate pre-check by
title/kind/year, then persist the merged record.  Note
`watched: args.watched !== false` — an omitted `watched` argument yields
`true` — and the matching `dateWatched` stamp. -/
def searchAndAddMovie (store : Store) (a : AddMovieArgs) (md : MovieMetadata)
    (newId now : String) : Store × String :=
  match findMediaByTitle store a.title (some .movie) a.year with
  | some existing =>
    (store, "Movie \"" ++ a.title ++ "\" already exists in your collection (ID: " ++
      existing.id ++ ")")
  | none =>
    let watchedV := a.watched ≠ some false
    let item : MediaItem :=
      { id := newId
        type := .movie
        title := a.title
        year := jsOrInt a.year md.year
        watched := watchedV
        rating := a.rating
        dateWatched := if watchedV then some now else none
        notes := a.notes
        genres := md.genres
        likedAspects := a.likedAspects
        dislikedAspects := a.dislikedAspects
        mood := a.mood
        recommendationContext := a.recommendationContext
        director := md.director }
    let statusText := if item.watched then "watched" else "added to watchlist"
    let yearText := if intTruthy item.year then " (" ++ toString (item.year.getD 0) ++ ")" else ""
    let ratingText :=
      if natTruthy item.rating then " - Rating: " ++ toString (item.rating.getD 0) ++ "/10" else ""
    let metadataText :=
      if strTruthy md.director then " (Director: " ++ md.director.getD "" ++ ")" else ""
    (store ++ [item],
      "Successfully " ++ statusText ++ ": " ++ item.title ++ yearText ++ ratingText ++
        metadataText)

/-- Arguments of the `search_and_add_book` tool (`read` plays the role of
`watched`). -/
structure AddBookArgs where
  title : String
  author : Option String := none
  read : Option Bool := none
  rating : Option Nat := none
  notes : Option String := none
  likedAspects : Option String := none
  dislikedAspects : Option String := none
  mood : Option String := none
  recommendationContext : Option String := none
deriving Repr

/-- Book enrichment bundle (genres already JSON-stringified by the handler). -/
structure BookMetadata where
  year : Option Int := none
  genres : Option String := none
  author : Option String := none
deriving Repr

/-- The `search_and_add_book` handler body (`read !== false`, same pattern
as movies; the duplicate pre-check passes no year). -/
def searchAndAddBook (store : Store) (a : AddBookArgs) (md : BookMetadata)
    (newId now : String) : Store × String :=
  match findMediaByTitle store a.title (some .book) none with
  | some existing =>
    (store, "Book \"" ++ a.title ++ "\" already exists in your collection (ID: " ++
      existing.id ++ ")")
  | none =>
    let readV := a.read ≠ some false
    let authorV := if strTruthy a.author then a.author else md.author
    let item : MediaItem :=
      { id := newId
        type := .book
        title := a.title
        year := md.year
        watched := readV
        rating := a.rating
        dateWatched := if readV then some now else none
        notes := a.notes
        genres := md.genres
        likedAspects := a.likedAspects
        dislikedAspects := a.dislikedAspects
        mood := a.mood
        recommendationContext := a.recommendationContext
        author := authorV }
    let statusText := if item.watched then "read" else "added to reading list"
    let ratingText :=
      if natTruthy item.rating then " - Rating: " ++ toString (item.rating.getD 0) ++ "/10" else ""
    let authorText := if strTruthy authorV then " by " ++ authorV.getD "" else ""
    (store ++ [item],
      "Successfully " ++ statusText ++ ": " ++ item.title ++ authorText ++ ratingText)

/-- Arguments of the `search_and_add_tv_show` tool. -/
structure AddTvArgs where
  title : String
  year : Option Int := none
  watched : Option Bool := none
  rating : Option Nat := none
  notes : Option String := none
  likedAspects : Option String := none
  dislikedAspects : Option String := none
  mood : Option String := none
  recommendationContext : Option String := none
deriving Repr

/-- TV enrichment bundle. -/
structure TvMetadata where
  year : Option Int := none
  genres : Option String := none
  creator : Option String := none
  network : Option String := none
deriving Repr

/-- The `search_and_add_tv_show` handler body. -/
def searchAndAddTvShow (store : Store) (a : AddTvArgs) (md : TvMetadata)
    (newId now : String) : Store × String :=
  match findMediaByTitle store a.title (some .tv_show) a.year with
  | some existing =>
    (store, "TV show \"" ++ a.title ++ "\" already exists in your collection (ID: " ++
      existing.id ++ ")")
  | none =>
    let watchedV := a.watched ≠ some false
    let item : MediaItem :=
      { id := newId
        type := .tv_show
        title := a.title
        year := jsOrInt a.year md.year
        watched := watchedV
        rating := a.rating
        dateWatched := if watchedV then some now else none
        notes := a.notes
        genres := md.genres
        likedAspects := a.likedAspects
        dislikedAspects := a.dislikedAspects
        mood := a.mood
        recommendationContext := a.recommendationContext
        creator := md.creator }
    let statusText := if item.watched then "watched" else "added to watchlist"
    let yearText := if intTruthy item.year then " (" ++ toString (item.year.getD 0) ++ ")" else ""
    let ratingText :=
      if natTruthy item.rating then " - Rating: " ++ toString (item.rating.getD 0) ++ "/10" else ""
    let networkText := if strTruthy md.network then " (" ++ md.network.getD "" ++ ")" else ""
    (store ++ [item],
      "Successfully " ++ statusText ++ ": " ++ item.title ++ yearText ++ networkText ++
        ratingText)

/-- Arguments of the `update_movie` tool.  Its handler copies keys by
presence (`!== undefined`), not truthiness. -/
structure UpdateMovieArgs where
  id : String
  rating : Option Nat := none
  watched : Option Bool := none
  notes : Option String := none
  likedAspects : Option String := none
  dislikedAspects : Option String := none
  mood : Option String := none
deriving Repr

/-- The `update_movie` handler body. -/
def updateMovieTool (store : Store) (a : UpdateMovieArgs) (dbNow : String) : Store × String :=
  let u : MediaUpdate :=
    { rating := a.rating
      watched := a.watched
      notes := a.notes
      likedAspects := a.likedAspects
      dislikedAspects := a.dislikedAspects
      mood := a.mood }
  let r := updateMedia store a.id u none dbNow
  if !r.1 then (r.2, "Movie with ID " ++ a.id ++ " not found.")
  else
    (r.2, "Updated \"" ++ ((getMediaById r.2 a.id).map (·.title)).getD "undefined" ++
      "\" successfully.")

/-- Arguments of the `list_media` tool. -/
structure ListMediaArgs where
  type : Option MediaType := none
  watched_only : Option Bool := none
  watchlist_only : Option Bool := none
  min_rating : Option Nat := none
  genre : Option String := none
  creator : Option String := none
  year : Option Int := none
deriving Repr

/-- Filter construction of the `list_media` handler: a truthy
`watched_only` sets `watchedOnly: true`, otherwise a truthy
`watchlist_only` sets `watchedOnly: false` — which `getMedia`'s truthiness
test then ignores entirely.  The `creator` argument only sets the
`director`/`author` filter fields, from which `getMedia` builds no
condition. -/
def listMediaFilters (a : ListMediaArgs) : GetFilters :=
  { type := a.type
    watchedOnly :=
      if a.watched_only = some true then some true
      else if a.watchlist_only = some true then some false
      else none
    minRating := if natTruthy a.min_rating then a.min_rating else none
    genre := if strTruthy a.genre then a.genre else none
    year := if intTruthy a.year then a.year else none }

/-- The row set the `list_media` handler renders (`const media = await
mediaDb.getMedia(filters)`). -/
def listMediaItems (store : Store) (a : ListMediaArgs) : List MediaItem :=
  getMedia store (listMediaFilters a)

/-- One formatted line of the `list_media` output. -/
def listMediaLine (m : MediaItem) : String :=
  let status :=
    if m.watched then (if m.type = .book then "Read" else "Watched") else "📋 Watchlist"
  let rating := if natTruthy m.rating then " - " ++ toString (m.rating.getD 0) ++ "/10" else ""
  let creatorText :=
    if m.type = .movie && strTruthy m.director then " - Dir: " ++ m.director.getD ""
    else if m.type = .book && strTruthy m.author then " - Author: " ++ m.author.getD ""
    else ""
  let genres :=
    match m.genres with
    | some g =>
      if g ≠ "" then
        " [" ++ String.intercalate ", " (((parseJsonStringList g).getD []).take 2) ++ "]"
      else ""
    | none => ""
  let notes := match m.notes with
    | some n => if n ≠ "" then " - \"" ++ n ++ "\"" else ""
    | none => ""
  let typeEmoji :=
    match m.type with
    | .movie => "🎬"
    | .book => "📚"
    | .tv_show => "📺"
  let yearText := if intTruthy m.year then " (" ++ toString (m.year.getD 0) ++ ")" else ""
  typeEmoji ++ " " ++ m.title ++ yearText ++ " - " ++ status ++ rating ++ creatorText ++
    genres ++ notes

/-- The `list_media` handler body. -/
def listMediaTool (store : Store) (a : ListMediaArgs) : String :=
  let media := listMediaItems store a
  if media.length = 0 then "No media found matching your criteria."
  else String.intercalate "\n" (media.map listMediaLine)

/-! ## Two-table store: `addMedia` vs the MySQL adapter's `addMovie`

`MediaDatabase.addMedia` runs its base insert and its extension insert
inside one `db.transaction`; the MySQL adapter's `addMovie` runs the same
two inserts as two independent auto-committed `connection.execute` calls.
The two-table state and the two execution modes are modelled explicitly so
the difference is the code's, not the model's. -/

/-- A row of the base `media` table (columns the MySQL `INSERT` supplies). -/
structure MediaRow where
  id : String
  type : MediaType
  title : String
  year : Option Int := none
  watched : Bool := false
  rating : Option Nat := none
  notes : Option String := none
  genres : Option String := none
deriving DecidableEq, Repr

/-- A row of the `movies` extension table. -/
structure MovieRow where
  mediaId : String
  director : Option String := none
  cast : Option String := none
deriving DecidableEq, Repr

/-- The two tables.  Books and TV shows are symmetric to movies and are not
duplicated here. -/
structure TwoTableDB where
  mediaRows : List MediaRow
  movieRows : List MovieRow
deriving DecidableEq, Repr

/-- One `INSERT` statement. -/
inductive DbStmt
  | insMedia (m : MediaRow)
  | insMovie (r : MovieRow)

/-- Execute one successful statement. -/
def applyStmt (db : TwoTableDB) : DbStmt → TwoTableDB
  | .insMedia m => { db with mediaRows := db.mediaRows ++ [m] }
  | .insMovie r => { db with movieRows := db.movieRows ++ [r] }

/-- Run statements inside one transaction (drizzle `db.transaction`): the
first failing statement aborts and rolls the store back to its state at
`BEGIN`; the error propagates to the caller. -/
def runTxFrom (fails : DbStmt → Bool) (orig cur : TwoTableDB) :
    List DbStmt → Except String Unit × TwoTableDB
  | [] => (.ok (), cur)
  | stmt :: rest =>
    if fails stmt then (.error "statement failed", orig)
    else runTxFrom fails orig (applyStmt cur stmt) rest

/-- Semantics of `db.transaction(async tx => ...)`. -/
def runTransaction (fails : DbStmt → Bool) (db : TwoTableDB) (stmts : List DbStmt) :
    Except String Unit × TwoTableDB :=
  runTxFrom fails db db stmts

/-- Run statements as independent auto-committed `connection.execute` calls:
a failure keeps every statement already executed. -/
def runAutocommit (fails : DbStmt → Bool) (db : TwoTableDB) :
    List DbStmt → Except String Unit × TwoTableDB
  | [] => (.ok (), db)
  | stmt :: rest =>
    if fails stmt then (.error "statement failed", db)
    else runAutocommit fails (applyStmt db stmt) rest

/-- The statement list of `MediaDatabase.addMedia`: insert the base record,
then — when kind-specific data is supplied and the kind matches a modelled
extension table — insert the extension record with `mediaId` forced to the
base id. -/
def addMediaStmts (m : MediaRow) (ext : Option MovieRow) : List DbStmt :=
  .insMedia m ::
    (match ext with
     | some r => if m.type = .movie then [.insMovie { r with mediaId := m.id }] else []
     | none => [])

/-- Model of `MediaDatabase.addMedia`: both inserts inside one transaction. -/
def addMedia (fails : DbStmt → Bool) (db : TwoTableDB) (m : MediaRow)
    (ext : Option MovieRow) : Except String Unit × TwoTableDB :=
  runTransaction fails db (addMediaStmts m ext)

/-- Model of `createMySQLMediaDatabase.addMovie`: the same base + extension inserts,
but as two separate auto-committed statements with no surrounding
transaction. -/
def mysqlAddMovie (fails : DbStmt → Bool) (db : TwoTableDB) (m : MediaRow)
    (director cast : Option String) (newId : String) : Except String Unit × TwoTableDB :=
  runAutocommit fails db
    [.insMedia { m with id := newId, type := .movie },
     .insMovie { mediaId := newId, director := director, cast := cast }]

/-! ## HTTP `/mcp` POST endpoint (HTTP/SSE server)

The fetch handler checks the `Authorization` header before reading the
request body or touching the store.  Store accesses of the dispatched
handlers are tracked explicitly so "no persistence operation is performed"
is a statement of the model, not an assumption. -/

/-- A persistence access. -/
inductive StoreOp
  | read
  | write
deriving DecidableEq, Repr

/-- An HTTP response (status and body). -/
structure HttpResponse where
  status : Nat
  body : String
deriving DecidableEq, Repr

/-- The `params` bag of the `/mcp` JSON-RPC body. -/
structure McpParams where
  id : Option String := none
  title : Option String := none
  year : Option Int := none
  watched : Option Bool := none
  rating : Option Nat := none
  notes : Option String := none
  watched_only : Option Bool := none
  min_rating : Option Nat := none
deriving Repr

/-- A dispatched result: a text content block or an error object. -/
inductive McpResult
  | content (text : String)
  | errorResult (msg : String)
deriving DecidableEq, Repr

/-- Model of `MediaDatabase.getMovies`: `getMedia` restricted to movies. -/
def getMovies (store : Store) (watchedOnly : Option Bool) (minRating : Option Nat) :
    List MediaItem :=
  (getMedia store { type := some .movie, watchedOnly := watchedOnly, minRating := minRating
    }).filter (fun i => i.type = .movie)

/-- The HTTP server's `add_movie` handler: no duplicate pre-check; a missing
title makes the `NOT NULL` insert fail inside the handler's own catch. -/
def mcp2AddMovie (store : Store) (p : McpParams) (newId now : String) :
    McpResult × Store × List StoreOp :=
  match p.title with
  | none =>
    (.content "Error adding movie: NOT NULL constraint failed: media.title", store, [.write])
  | some t =>
    let watchedV := p.watched ≠ some false
    let item : MediaItem :=
      { id := newId
        type := .movie
        title := t
        year := p.year
        watched := watchedV
        rating := p.rating
        dateWatched := if watchedV then some now else none
        notes := p.notes }
    (.content ("Added movie: " ++ t), store ++ [item], [.write])

/-- The HTTP server's `list_movies` handler. -/
def mcp2ListMovies (store : Store) (p : McpParams) : McpResult × Store × List StoreOp :=
  let movies := getMovies store p.watched_only p.min_rating
  if movies.length = 0 then
    (.content "No movies found matching your criteria.", store, [.read])
  else
    (.content (String.intercalate "\n" (movies.map (fun m =>
      "• " ++ m.title ++ (if intTruthy m.year then " (" ++ toString (m.year.getD 0) ++ ")" else "")
        ++ " - " ++ (if m.watched then "Watched" else "Not watched")
        ++ (if natTruthy m.rating then " - " ++ toString (m.rating.getD 0) ++ "/10" else "")))),
      store, [.read])

/-- The HTTP server's `get_recommendations` handler
(`getHighRatedMedia('movie')` = consumed movies rated at least 7). -/
def mcp2GetRecommendations (store : Store) : McpResult × Store × List StoreOp :=
  let liked := getMedia store { type := some .movie, watchedOnly := some true, minRating := some 7 }
  if liked.length = 0 then
    (.content "No recommendations available yet. Add and rate some movies you've watched first!",
      store, [.read])
  else
    (.content ("Based on your preferences (you enjoyed " ++
      String.intercalate ", " ((liked.take 3).map (·.title)) ++ "), here are some recommendations."),
      store, [.read])

/-- The HTTP server's `update_movie` handler. -/
def mcp2UpdateMovie (store : Store) (p : McpParams) (dbNow : String) :
    McpResult × Store × List StoreOp :=
  let u : MediaUpdate := { rating := p.rating, watched := p.watched, notes := p.notes }
  let r := updateMedia store (p.id.getD "undefined") u none dbNow
  if !r.1 then
    (.content ("Movie with ID " ++ p.id.getD "undefined" ++ " not found."), r.2, [.read])
  else
    (.content ("Updated movie: " ++
      ((getMediaById r.2 (p.id.getD "undefined")).map (·.title)).getD "null"), r.2, [.read, .write])

/-- The `/mcp` method dispatch table (after authentication). -/
def mcpDispatch (store : Store) (method : Option String) (p : McpParams)
    (newId now dbNow : String) : McpResult × Store × List StoreOp :=
  if method = some "list_media" then mcp2ListMovies store p
  else if method = some "add_movie_to_watchlist" then
    mcp2AddMovie store { p with watched := some false } newId now
  else if method = some "get_smart_recommendations" then mcp2GetRecommendations store
  else if method = some "update_movie" then mcp2UpdateMovie store p dbNow
  else if method = some "mark_as_watched" then
    mcp2UpdateMovie store { p with watched := some true } dbNow
  else if method = some "analyze_preferences" then
    (.content "Preference analysis not implemented.", store, [])
  else (.errorResult "Unknown method", store, [])

/-- Render the JSON-RPC reply body (shape only; no claim inspects it). -/
def renderMcpResult : McpResult → String
  | .content t => "jsonrpc 2.0 result content " ++ t
  | .errorResult e => "jsonrpc 2.0 result error " ++ e

/-- The `/mcp` POST fetch handler: `401` when the `Authorization` header is
absent or not `Bearer `-prefixed; `403` when the presented token differs
from the configured `API_KEY`; `400` when the body is not JSON; otherwise
dispatch.  The body is `none` when `request.json()` would throw. -/
def mcpPost (authHeader : Option String) (apiKey : String)
    (body : Option (Option String × McpParams)) (store : Store)
    (newId now dbNow : String) : HttpResponse × Store × List StoreOp :=
  match authHeader with
  | none => (⟨401, "Unauthorized"⟩, store, [])
  | some h =>
    if !leadsWith "Bearer ".data h.data then (⟨401, "Unauthorized"⟩, store, [])
    else
      let token := String.mk (h.data.drop 7)
      if token ≠ apiKey then (⟨403, "Invalid API key"⟩, store, [])
      else
        match body with
        | none => (⟨400, "Invalid JSON or server error"⟩, store, [])
        | some (method, p) =>
          let r := mcpDispatch store method p newId now dbNow
          (⟨200, renderMcpResult r.1⟩, r.2.1, r.2.2)

/-! ## The stdio tool dispatcher (`CallToolRequestSchema` handler)

Every named tool wraps its body in `try { ... } catch { return error text }`;
only the `default` case throws.  Internal failures (a rejected database
promise, a failed enrichment call, the `ReferenceError` from this source
file's undefined `movieDb` binding) are injected through `dbErr`; the
handlers whose bodies dereference `movieDb` — which this file never defines
— always throw that `ReferenceError` before reaching any store. -/

/-- The argument/environment bundle a dispatch call closes over. -/
structure CallArgs where
  addMovie : AddMovieArgs
  addBook : AddBookArgs
  addTv : AddTvArgs
  mark : MarkArgs
  update : UpdateMovieArgs
  listm : ListMediaArgs
  movieMd : MovieMetadata
  bookMd : BookMetadata
  tvMd : TvMetadata
  newId : String
  handlerNow : String
  dbNow : String

/-- The names in the dispatch table. -/
def toolNames : List String :=
  ["search_and_add_movie", "add_movie_to_watchlist", "list_movies",
   "get_smart_recommendations", "mark_as_watched", "analyze_preferences",
   "update_movie", "search_and_add_book", "search_and_add_tv_show", "list_media"]

/-- Semantics of `try { body } catch (error) { return text(prefix + message) }`. -/
def catchToText (errPrefix : String) (body : Except String String) : String :=
  match body with
  | .ok t => t
  | .error e => errPrefix ++ e

/-- Lift a pure handler result past the failure oracle. -/
def withDbErr (dbErr : Option String) (t : String) : Except String String :=
  match dbErr with
  | some e => .error e
  | none => .ok t

/-- The `CallToolRequestSchema` handler: one case per tool name, each
returning a text content block even on internal failure; the `default`
case throws `Unknown tool`. -/
def callTool (name : String) (store : Store) (dbErr : Option String) (a : CallArgs) :
    Except String String :=
  if name = "search_and_add_movie" then
    .ok (catchToText "Error adding movie: "
      (withDbErr dbErr (searchAndAddMovie store a.addMovie a.movieMd a.newId a.handlerNow).2))
  else if name = "add_movie_to_watchlist" then
    .ok (catchToText "Error adding to watchlist: " (.error "movieDb is not defined"))
  else if name = "list_movies" then
    .ok (catchToText "Error listing movies: " (.error "movieDb is not defined"))
  else if name = "get_smart_recommendations" then
    .ok (catchToText "Error generating recommendations: " (.error "movieDb is not defined"))
  else if name = "mark_as_watched" then
    .ok (catchToText "Error marking as watched: "
      (withDbErr dbErr (markAsWatchedTool store a.mark a.handlerNow a.dbNow).2))
  else if name = "analyze_preferences" then
    .ok (catchToText "Error analyzing preferences: " (.error "movieDb is not defined"))
  else if name = "update_movie" then
    .ok (catchToText "Error updating movie: "
      (withDbErr dbErr (updateMovieTool store a.update a.dbNow).2))
  else if name = "search_and_add_book" then
    .ok (catchToText "Error adding book: "
      (withDbErr dbErr (searchAndAddBook store a.addBook a.bookMd a.newId a.handlerNow).2))
  else if name = "search_and_add_tv_show" then
    .ok (catchToText "Error adding TV show: "
      (withDbErr dbErr (searchAndAddTvShow store a.addTv a.tvMd a.newId a.handlerNow).2))
  else if name = "list_media" then
    .ok (catchToText "Error listing media: "
      (withDbErr dbErr (listMediaTool store a.listm)))
  else .error ("Unknown tool: " ++ name)

/-- The `ReadResourceRequestSchema` handler: every branch dereferences the
undefined `movieDb` binding (and the advertised `media-db://` URIs do not
even match the handled `movie-db://` ones), so the inner catch always
rethrows a wrapped error — the resource-read path raises. -/
def readResource (uri : String) : Except String String :=
  if uri = "movie-db://collection" ∨ uri = "movie-db://watchlist" ∨
      uri = "movie-db://preferences" then
    .error "Error reading resource: movieDb is not defined"
  else
    .error ("Error reading resource: Resource not found: " ++ uri)

/-! ## Concrete scenarios -/

/-- Whether an `Except` result is a success. -/
def exceptOk {ε α : Type} : Except ε α → Bool
  | .ok _ => true
  | .error _ => false

/-- A consumed movie row with a JSON-encoded genre list, as the
`search_and_add_movie` handler persists it. -/
def seedMovie (id title : String) (year : Int) (rating : Nat) (genres : String) : MediaItem :=
  { id := id, type := .movie, title := title, year := some year, watched := true,
    rating := some rating, genres := some genres }

/-- The spec's seeding scenario: The Matrix (1999, 9, Sci-Fi),
Inception (2010, 8, Sci-Fi), Amelie (2001, 6, Drama), all watched. -/
def seedC1 : Store :=
  [seedMovie "1" "The Matrix" 1999 9 "[\"Sci-Fi\"]",
   seedMovie "2" "Inception" 2010 8 "[\"Sci-Fi\"]",
   seedMovie "3" "Amelie" 2001 6 "[\"Drama\"]"]

/-- The spec's threshold scenario: A(Sci-Fi, 9), B(Sci-Fi, 7), C(Drama, 10),
all watched. -/
def thresholdStore : Store :=
  [seedMovie "A" "A" 2000 9 "[\"Sci-Fi\"]",
   seedMovie "B" "B" 2001 7 "[\"Sci-Fi\"]",
   seedMovie "C" "C" 2002 10 "[\"Drama\"]"]

/-- A single watched movie by a single director. -/
def soloDirector : MediaItem :=
  { id := "S", type := .movie, title := "Solo", watched := true, rating := some 9,
    director := some "Solo Director" }

/-- Two genres with equal averages, `Alpha` discovered before `Beta`. -/
def tieStore : Store :=
  [seedMovie "1" "T1" 2000 8 "[\"Alpha\"]",
   seedMovie "2" "T2" 2001 8 "[\"Alpha\"]",
   seedMovie "3" "T3" 2002 8 "[\"Beta\"]",
   seedMovie "4" "T4" 2003 8 "[\"Beta\"]"]

/-- An already-watched item with a consumption date on record. -/
def heat2024 : MediaItem :=
  { id := "1", type := .movie, title := "Heat", watched := true, rating := some 9,
    dateWatched := some "2024-01-01T00:00:00.000Z" }

/-- An item with no consumption date. -/
def ranUnwatched : MediaItem :=
  { id := "2", type := .movie, title := "Ran" }

/-- Failure oracle: only the extension insert fails. -/
def failSecondStmt : DbStmt → Bool
  | .insMovie _ => true
  | .insMedia _ => false

/-- Failure oracle: every statement succeeds. -/
def noFailStmt : DbStmt → Bool := fun _ => false

/-- A base row to insert. -/
def heatRow : MediaRow :=
  { id := "x", type := .movie, title := "Heat" }

/-- An extension row to insert. -/
def heatMovieRow : MovieRow :=
  { mediaId := "x", director := some "Michael Mann" }

/-- A concrete argument bundle for dispatcher calls. -/
def demoCallArgs : CallArgs :=
  { addMovie := { title := "T" }
    addBook := { title := "B" }
    addTv := { title := "S" }
    mark := { id := "1" }
    update := { id := "1" }
    listm := {}
    movieMd := {}
    bookMd := {}
    tvMd := {}
    newId := "n"
    handlerNow := "h"
    dbNow := "d" }

/-! ## Lemmas about the stable sort -/

/-- Name the count of stream pairs bearing key `g`. -/
def keyCount (ps : List (String × Nat)) (g : String) : Nat :=
  (ps.filter (fun q => q.1 = g)).length

/-- Name the rating total of stream pairs bearing key `g`. -/
def keySum (ps : List (String × Nat)) (g : String) : Nat :=
  ((ps.filter (fun q => q.1 = g)).map (·.2)).sum

/-- Look up the stats entry of key `g` (JS `map.get(g)`). -/
def lookupSt (m : List (String × Stats)) (g : String) : Option Stats :=
  (m.find? (fun p => p.1 = g)).map (·.2)

theorem mem_jsInsert {α : Type _} {bef : α → α → Bool} {a x : α} {l : List α}
    (h : x ∈ jsInsert bef a l) : x = a ∨ x ∈ l := by
  induction l with
  | nil => simpa [jsInsert] using h
  | cons b m ih =>
    cases hb : bef a b with
    | true =>
      simp [jsInsert, hb] at h
      rcases h with rfl | rfl | hm
      · exact Or.inl rfl
      · exact Or.inr (by simp)
      · exact Or.inr (by simp [hm])
    | false =>
      simp [jsInsert, hb] at h
      rcases h with rfl | hm
      · exact Or.inr (by simp)
      · rcases ih hm with rfl | hm2
        · exact Or.inl rfl
        · exact Or.inr (by simp [hm2])

theorem mem_jsSortAcc {α : Type _} {bef : α → α → Bool} {x : α} :
    ∀ {l acc : List α}, x ∈ jsSortAcc bef acc l → x ∈ acc ∨ x ∈ l := by
  intro l
  induction l with
  | nil => intro acc h; exact Or.inl (by simpa [jsSortAcc] using h)
  | cons y m ih =>
    intro acc h
    rcases ih (by simpa [jsSortAcc] using h) with hin | hm
    · rcases mem_jsInsert hin with rfl | ha
      · exact Or.inr (by simp)
      · exact Or.inl ha
    · exact Or.inr (by simp [hm])

theorem mem_jsSort {α : Type _} {bef : α → α → Bool} {x : α} {l : List α}
    (h : x ∈ jsSort bef l) : x ∈ l := by
  rcases mem_jsSortAcc h with h0 | h1
  · simp at h0
  · exact h1

theorem chain'_jsInsert {α : Type _} {R : α → α → Prop} {bef : α → α → Bool} {a : α}
    {l : List α}
    (hcmp : ∀ x ∈ l, (bef a x = true → R a x) ∧ (bef a x = false → R x a))
    (hl : List.Chain' R l) : List.Chain' R (jsInsert bef a l) := by
  induction l with
  | nil => simp [jsInsert]
  | cons b m ih =>
    cases hb : bef a b with
    | true =>
      have hR : R a b := (hcmp b (by simp)).1 hb
      simp only [jsInsert, hb, if_true]
      exact List.chain'_cons.mpr ⟨hR, hl⟩
    | false =>
      have hm : List.Chain' R m := hl.tail
      have ihm := ih (fun x hx => hcmp x (by simp [hx])) hm
      simp only [jsInsert, hb, Bool.false_eq_true, if_false]
      rw [List.chain'_cons']
      refine ⟨?_, ihm⟩
      intro y hy
      cases m with
      | nil =>
        simp [jsInsert, Option.mem_def] at hy
        subst hy
        exact (hcmp b (by simp)).2 hb
      | cons c m' =>
        cases hc : bef a c with
        | true =>
          simp [jsInsert, hc, Option.mem_def] at hy
          subst hy
          exact (hcmp b (by simp)).2 hb
        | false =>
          simp [jsInsert, hc, Option.mem_def] at hy
          subst hy
          exact (List.chain'_cons.mp hl).1

theorem chain'_jsSortAcc {α : Type _} {R : α → α → Prop} {bef : α → α → Bool} (P : α → Prop)
    (hcmp : ∀ x y, P x → P y → (bef x y = true → R x y) ∧ (bef x y = false → R y x)) :
    ∀ (l acc : List α), (∀ x ∈ acc, P x) → (∀ x ∈ l, P x) → List.Chain' R acc →
      List.Chain' R (jsSortAcc bef acc l) := by
  intro l
  induction l with
  | nil =>
    intro acc _ _ hacc
    simpa [jsSortAcc] using hacc
  | cons y m ih =>
    intro acc hPacc hPl hacc
    simp only [jsSortAcc]
    apply ih
    · intro x hx
      rcases mem_jsInsert hx with rfl | hxa
      · exact hPl x (by simp)
      · exact hPacc x hxa
    · intro x hx
      exact hPl x (by simp [hx])
    · exact chain'_jsInsert (fun x hx => hcmp y x (hPl y (by simp)) (hPacc x hx)) hacc

theorem chain'_jsSort {α : Type _} {R : α → α → Prop} {bef : α → α → Bool} (P : α → Prop)
    (hcmp : ∀ x y, P x → P y → (bef x y = true → R x y) ∧ (bef x y = false → R y x))
    (l : List α) (hPl : ∀ x ∈ l, P x) : List.Chain' R (jsSort bef l) :=
  chain'_jsSortAcc P hcmp l [] (by simp) hPl (by simp)

/-- Cross-multiplied comparison agrees with the comparison of averages when
both counts are positive. -/
theorem avgBefore_link (p q : String × Stats) (hp : 0 < p.2.count) (hq : 0 < q.2.count) :
    (avgBefore p q = true → avgQ q.2 ≤ avgQ p.2) ∧
    (avgBefore p q = false → avgQ p.2 ≤ avgQ q.2) := by
  have hpQ : (0 : ℚ) < (p.2.count : ℚ) := by exact_mod_cast hp
  have hqQ : (0 : ℚ) < (q.2.count : ℚ) := by exact_mod_cast hq
  constructor
  · intro h
    have hlt : q.2.totalRating * p.2.count < p.2.totalRating * q.2.count := by
      simpa [avgBefore] using h
    unfold avgQ
    rw [div_le_div_iff₀ hqQ hpQ]
    exact_mod_cast le_of_lt hlt
  · intro h
    have hle : p.2.totalRating * q.2.count ≤ q.2.totalRating * p.2.count := by
      simpa [avgBefore, not_lt] using h
    unfold avgQ
    rw [div_le_div_iff₀ hpQ hqQ]
    exact_mod_cast hle

/-! ## Lemmas about the frequency map -/

theorem lookupSt_upsert (m : List (String × Stats)) (k : String) (v : Nat) (g : String) :
    lookupSt (upsert m k v) g =
      if g = k then
        some (match lookupSt m k with
          | none => ⟨1, v⟩
          | some st => ⟨st.count + 1, st.totalRating + v⟩)
      else lookupSt m g := by
  induction m with
  | nil =>
    by_cases hg : g = k
    · simp [upsert, lookupSt, List.find?, hg]
    · have hne : ¬(k = g) := fun he => hg he.symm
      simp [upsert, lookupSt, List.find?, hg, hne]
  | cons p m ih =>
    obtain ⟨k', st⟩ := p
    by_cases hk : k' = k
    · subst hk
      by_cases hg : g = k'
      · subst hg
        simp [upsert, lookupSt, List.find?]
      · simp [upsert, lookupSt, List.find?, hg, Ne.symm hg]
    · by_cases hg : g = k'
      · subst hg
        simp [upsert, lookupSt, List.find?, hk, Ne.symm hk]
      · have ih' := ih
        simp only [upsert, if_neg hk]
        simp only [lookupSt, List.find?] at ih' ⊢
        simp [hg, Ne.symm hg, hk, ih']

theorem keyCount_concat (ps : List (String × Nat)) (k : String) (v : Nat) (g : String) :
    keyCount (ps ++ [(k, v)]) g = keyCount ps g + (if k = g then 1 else 0) := by
  unfold keyCount
  rw [List.filter_append, List.length_append]
  by_cases h : k = g <;> simp [h]

theorem keySum_concat (ps : List (String × Nat)) (k : String) (v : Nat) (g : String) :
    keySum (ps ++ [(k, v)]) g = keySum ps g + (if k = g then v else 0) := by
  unfold keySum
  rw [List.filter_append, List.map_append, List.sum_append]
  by_cases h : k = g <;> simp [h]

theorem keySum_eq_zero (ps : List (String × Nat)) (g : String) (h : keyCount ps g = 0) :
    keySum ps g = 0 := by
  unfold keyCount at h
  unfold keySum
  rw [List.length_eq_zero] at h
  rw [h]
  rfl

theorem lookupSt_buildMap (ps : List (String × Nat)) (g : String) :
    lookupSt (buildMap ps) g =
      if 0 < keyCount ps g then some ⟨keyCount ps g, keySum ps g⟩ else none := by
  induction ps using List.reverseRecOn with
  | nil => simp [buildMap, lookupSt, keyCount, List.find?]
  | append_singleton ps p ih =>
    obtain ⟨k, v⟩ := p
    have hb : buildMap (ps ++ [(k, v)]) = upsert (buildMap ps) k v := by
      unfold buildMap
      rw [List.foldl_concat]
    rw [hb, lookupSt_upsert, keyCount_concat, keySum_concat]
    by_cases hg : g = k
    · subst hg
      rw [ih]
      by_cases h0 : 0 < keyCount ps g
      · simp [h0]
      · have hc0 : keyCount ps g = 0 := by omega
        have hs0 := keySum_eq_zero ps g hc0
        simp [h0, hc0, hs0]
    · have hne : ¬(k = g) := fun he => hg he.symm
      simp [hg, hne, ih]

theorem keys_upsert (m : List (String × Stats)) (k : String) (v : Nat) :
    (upsert m k v).map Prod.fst =
      if k ∈ m.map Prod.fst then m.map Prod.fst else m.map Prod.fst ++ [k] := by
  induction m with
  | nil => simp [upsert]
  | cons p m ih =>
    obtain ⟨k', st⟩ := p
    by_cases hk : k' = k
    · subst hk
      simp [upsert]
    · have hne : ¬(k = k') := fun he => hk he.symm
      simp only [upsert, if_neg hk, List.map_cons, ih]
      by_cases hmem : k ∈ m.map Prod.fst <;> simp [hmem, hne]

theorem keys_nodup_buildMap (ps : List (String × Nat)) :
    ((buildMap ps).map Prod.fst).Nodup := by
  induction ps using List.reverseRecOn with
  | nil => simp [buildMap]
  | append_singleton ps p ih =>
    obtain ⟨k, v⟩ := p
    have hb : buildMap (ps ++ [(k, v)]) = upsert (buildMap ps) k v := by
      unfold buildMap
      rw [List.foldl_concat]
    rw [hb, keys_upsert]
    by_cases hmem : k ∈ (buildMap ps).map Prod.fst
    · simpa [hmem] using ih
    · simp only [hmem, if_false]
      rw [List.nodup_append]
      refine ⟨ih, List.nodup_singleton k, ?_⟩
      intro a ha hb
      rw [List.mem_singleton] at hb
      subst hb
      exact hmem ha

theorem find?_eq_of_mem_nodup_keys {m : List (String × Stats)}
    (hnod : (m.map Prod.fst).Nodup) {p : String × Stats} (hp : p ∈ m) :
    m.find? (fun q => q.1 = p.1) = some p := by
  induction m with
  | nil => simp at hp
  | cons q rest ih =>
    rcases List.mem_cons.mp hp with rfl | hp'
    · simp [List.find?]
    · have hq : ¬(q.1 = p.1) := by
        intro he
        have hmem : p.1 ∈ rest.map Prod.fst := List.mem_map_of_mem Prod.fst hp'
        rw [List.map_cons, List.nodup_cons] at hnod
        exact hnod.1 (he ▸ hmem)
      simp only [List.find?, decide_eq_false hq]
      exact ih (by rw [List.map_cons, List.nodup_cons] at hnod; exact hnod.2) hp'

/-- Every entry of the frequency map records exactly the number of stream
pairs bearing its key and their rating total, and that count is positive. -/
theorem mem_buildMap_spec {ps : List (String × Nat)} {p : String × Stats}
    (hp : p ∈ buildMap ps) :
    p.2.count = keyCount ps p.1 ∧ p.2.totalRating = keySum ps p.1 ∧ 0 < p.2.count := by
  have hfind := find?_eq_of_mem_nodup_keys (keys_nodup_buildMap ps) hp
  have hlook : lookupSt (buildMap ps) p.1 = some p.2 := by
    unfold lookupSt
    rw [hfind]
    rfl
  rw [lookupSt_buildMap] at hlook
  by_cases h0 : 0 < keyCount ps p.1
  · rw [if_pos h0] at hlook
    have := Option.some.inj hlook
    constructor
    · rw [← this]
    constructor
    · rw [← this]
    · rw [← this]
      exact h0
  · rw [if_neg h0] at hlook
    exact absurd hlook (by simp)

/-! ## Counting genre occurrences per item -/

theorem keyCount_itemTokenPairs (i : MediaItem) (g : String) :
    keyCount (itemTokenPairs i) g = List.count g (itemGenreTokens i) := by
  unfold keyCount itemTokenPairs
  rw [← List.countP_eq_length_filter, List.countP_map, List.count_eq_countP]
  apply List.countP_congr
  intro t _
  simp only [Function.comp_apply]
  by_cases h : t = g
  · simp [h]
  · simp [h]

theorem keyCount_tokenPairs_cons (i : MediaItem) (items : List MediaItem) (g : String) :
    keyCount (tokenPairs (i :: items)) g =
      List.count g (itemGenreTokens i) + keyCount (tokenPairs items) g := by
  have h : tokenPairs (i :: items) = itemTokenPairs i ++ tokenPairs items := by
    simp [tokenPairs]
  rw [h]
  unfold keyCount
  rw [List.filter_append, List.length_append, ← keyCount_itemTokenPairs]
  rfl

/-- When each item lists a genre at most once, the number of stream pairs
bearing `g` is at most the number of items whose genre list contains `g`. -/
theorem keyCount_le_countP (items : List MediaItem) (g : String)
    (hnod : ∀ i ∈ items, (itemGenreTokens i).Nodup) :
    keyCount (tokenPairs items) g ≤
      items.countP (fun i => (itemGenreTokens i).contains g) := by
  induction items with
  | nil => simp [tokenPairs, keyCount]
  | cons i rest ih =>
    rw [keyCount_tokenPairs_cons, List.countP_cons]
    have hle : List.count g (itemGenreTokens i) ≤ 1 :=
      List.nodup_iff_count_le_one.mp (hnod i (by simp)) g
    have hrest := ih (fun j hj => hnod j (by simp [hj]))
    by_cases hc : (itemGenreTokens i).contains g = true
    · simp only [hc, if_true]
      omega
    · have hzero : List.count g (itemGenreTokens i) = 0 := by
        by_contra hne
        have hpos : 0 < List.count g (itemGenreTokens i) := Nat.pos_of_ne_zero hne
        have hmem : g ∈ itemGenreTokens i := List.count_pos_iff.mp hpos
        exact hc (List.elem_iff.mpr hmem)
      simp only [hc, if_false]
      omega

/-! # Claims -/

/-- **C1.** For a store seeded exactly with the three watched movies
The Matrix (1999, rating 9, genre Sci-Fi), Inception (2010, rating 8, genre
Sci-Fi) and Amelie (2001, rating 6, genre Drama) — genre lists stored in the
repository's JSON-array encoding — the analyze-preferences operation returns
favoriteGenres = ["Sci-Fi"], averageRating = 23/3 ≈ 7.67, and
totalConsumed = 3. -/
theorem C1_analyze_preferences_scenario :
    (getPreferenceAnalysis seedC1 none).favoriteGenres = ["Sci-Fi"] ∧
    (getPreferenceAnalysis seedC1 none).averageRating = 23 / 3 ∧
    |(getPreferenceAnalysis seedC1 none).averageRating - 767 / 100| ≤ 1 / 100 ∧
    (getPreferenceAnalysis seedC1 none).totalWatched = 3 := by
  have havg : (getPreferenceAnalysis seedC1 none).averageRating =
      ((23 : ℕ) : ℚ) / ((3 : ℕ) : ℚ) := rfl
  refine ⟨by decide, ?_, ?_, by decide⟩
  · rw [havg]; norm_num
  · rw [havg]; rw [abs_le]; constructor <;> norm_num

/-- **C3.** The preference analysis of a collection with zero consumed items
is exactly the all-empty result (empty genres, empty creators, average 0,
total 0, empty aspects), returned as a normal value. -/
theorem C3_empty_consumed_set (store : Store) (t : Option MediaType)
    (h : ∀ i ∈ store, i.watched = false) :
    getPreferenceAnalysis store t = ⟨[], [], 0, 0, []⟩ := by
  have hfil : store.filter (passesFilters { type := t, watchedOnly := some true }) = [] := by
    rw [List.filter_eq_nil_iff]
    intro i hi
    have hw := h i hi
    simp [passesFilters, hw]
  have hget : getMedia store { type := t, watchedOnly := some true } = [] := by
    unfold getMedia
    rw [hfil]
    rfl
  unfold getPreferenceAnalysis
  rw [hget]
  rfl

/-- Witness for C3: one unconsumed item. -/
theorem C3_empty_consumed_set_witness :
    getPreferenceAnalysis [ranUnwatched] none = ⟨[], [], 0, 0, []⟩ :=
  C3_empty_consumed_set [ranUnwatched] none (by decide)

/-- **C4 (evaluation at the failing input).** The first `mark_as_watched`
call on an item without a consumption date does set one (the claim's first
half); but a second call on an already-dated item *changes* the stored date
to the new call's timestamp, because the handler always passes an explicit
`dateWatched: new Date().toISOString()` and `updateMedia`'s no-overwrite
guard only fires when no date was set. -/
theorem C4_second_mark_overwrites_date :
    ((markAsWatchedTool [ranUnwatched] { id := "2", rating := some 9 }
        "2024-03-03T00:00:00.000Z" "2024-03-03T00:00:00.001Z").1.map (·.dateWatched) =
      [some "2024-03-03T00:00:00.001Z"]) ∧
    ((markAsWatchedTool [heat2024] { id := "1", rating := some 7 }
        "2024-02-02T00:00:00.000Z" "2024-02-02T00:00:00.001Z").1.map (·.dateWatched) =
      [some "2024-02-02T00:00:00.000Z"]) := by
  decide

/-- **C5 (evaluation at the failing input).** `search_and_add_movie` called
without a `watched` argument persists `watched = true` (`args.watched !==
false` with `args.watched === undefined`), although the tool's own input
schema declares `default: false`. -/
theorem C5_omitted_watched_persists_true :
    ((searchAndAddMovie [] { title := "The Matrix" } {} "id1"
        "2024-01-01T00:00:00.000Z").1.map (·.watched) = [true]) ∧
    ((searchAndAddMovie [] { title := "The Matrix" } {} "id1"
        "2024-01-01T00:00:00.000Z").1.map (·.dateWatched) =
      [some "2024-01-01T00:00:00.000Z"]) := by
  decide

/-- **C6 (evaluation at the failing input).** `list_media` with
`watchlist_only: true` (and `watched_only` unset) returns a store's watched
item unchanged: the handler translates `watchlist_only` into
`watchedOnly: false`, which `getMedia`'s truthiness test ignores, so no
watched-condition is pushed at all. -/
theorem C6_watchlist_only_returns_watched_item :
    listMediaItems [heat2024] { watchlist_only := some true } = [heat2024] ∧
    (listMediaItems [heat2024] { watchlist_only := some true }).map (·.watched) = [true] := by
  decide

/-- **C7.** Every `/mcp` POST with an absent or non-`Bearer` Authorization
header is answered `401`, and every one whose token differs from the
configured secret is answered `403`; in both cases the store is untouched
and no persistence operation is recorded — the dispatch table is never
reached. -/
theorem C7_auth_gate (auth : Option String) (apiKey : String)
    (body : Option (Option String × McpParams)) (store : Store) (newId now dbNow : String) :
    ((auth = none ∨ ∃ h, auth = some h ∧ leadsWith "Bearer ".data h.data = false) →
      mcpPost auth apiKey body store newId now dbNow = (⟨401, "Unauthorized"⟩, store, [])) ∧
    ((∃ h, auth = some h ∧ leadsWith "Bearer ".data h.data = true ∧
        String.mk (h.data.drop 7) ≠ apiKey) →
      mcpPost auth apiKey body store newId now dbNow = (⟨403, "Invalid API key"⟩, store, [])) := by
  constructor
  · rintro (rfl | ⟨h, rfl, hpre⟩)
    · rfl
    · simp [mcpPost, hpre]
  · rintro ⟨h, rfl, hpre, htok⟩
    simp [mcpPost, hpre, htok]

/-- Witness for C7: a missing header yields 401 and `Bearer wrong` against
secret `abc` yields 403, with no store operation in either case. -/
theorem C7_auth_gate_witness :
    mcpPost none "abc" none [] "i" "n" "d" = (⟨401, "Unauthorized"⟩, [], []) ∧
    mcpPost (some "Bearer wrong") "abc" none [] "i" "n" "d" =
      (⟨403, "Invalid API key"⟩, [], []) :=
  ⟨(C7_auth_gate none "abc" none [] "i" "n" "d").1 (Or.inl rfl),
   (C7_auth_gate (some "Bearer wrong") "abc" none [] "i" "n" "d").2
     ⟨"Bearer wrong", rfl, by decide, by decide⟩⟩

/-- **C9 (amended).** `MediaDatabase.addMedia` runs the base insert and the
extension insert inside one transaction: on success both rows are appended,
and if either insert fails the store is rolled back unchanged — no
half-completed add. -/
theorem C9_addMedia_atomic (fails : DbStmt → Bool) (db : TwoTableDB) (m : MediaRow)
    (r : MovieRow) (hm : m.type = .movie) :
    (exceptOk (addMedia fails db m (some r)).1 = true →
      (addMedia fails db m (some r)).2 =
        ⟨db.mediaRows ++ [m], db.movieRows ++ [{ r with mediaId := m.id }]⟩) ∧
    (exceptOk (addMedia fails db m (some r)).1 = false →
      (addMedia fails db m (some r)).2 = db) := by
  unfold addMedia addMediaStmts runTransaction
  rw [hm]
  simp only [if_pos rfl]
  cases h1 : fails (.insMedia m) <;>
    cases h2 : fails (.insMovie { r with mediaId := m.id }) <;>
      simp [runTxFrom, h1, h2, applyStmt, exceptOk]

/-- Witness for C9: with no failures both rows land; with a failing
extension insert the transactional store is left exactly as before. -/
theorem C9_addMedia_atomic_witness :
    (addMedia noFailStmt ⟨[], []⟩ heatRow (some heatMovieRow)).2 =
      ⟨[heatRow], [{ heatMovieRow with mediaId := heatRow.id }]⟩ ∧
    (addMedia failSecondStmt ⟨[], []⟩ heatRow (some heatMovieRow)).2 = ⟨[], []⟩ :=
  ⟨by
    have h := (C9_addMedia_atomic noFailStmt ⟨[], []⟩ heatRow heatMovieRow (by decide)).1
      (by decide)
    simpa using h,
   (C9_addMedia_atomic failSecondStmt ⟨[], []⟩ heatRow heatMovieRow (by decide)).2 (by decide)⟩

/-- **C9 (counterexample to the claim as stated).** The MySQL adapter's
`addMovie` issues the same two inserts as independent auto-committed
statements: when the extension insert fails, the base `media` row stays
persisted with no `movies` row — a half-completed add, so "if either insert
fails, neither row is persisted" is false of the cited adapter. -/
theorem C9_mysql_half_add :
    exceptOk (mysqlAddMovie failSecondStmt ⟨[], []⟩ heatRow none none "m1").1 = false ∧
    (mysqlAddMovie failSecondStmt ⟨[], []⟩ heatRow none none "m1").2.mediaRows =
      [{ heatRow with id := "m1", type := .movie }] ∧
    (mysqlAddMovie failSecondStmt ⟨[], []⟩ heatRow none none "m1").2.movieRows = [] := by
  decide

/-- **C10.** `updateMedia` on an id not in the store returns `false` and
leaves every record unchanged; on a present id it returns `true`, and with
an empty update object (and no kind-specific update) it changes nothing. -/
theorem C10_update_absent_or_empty (store : Store) (id : String) (u : MediaUpdate)
    (su : Option SpecificUpdate) (now : String) :
    (getMediaById store id = none → updateMedia store id u su now = (false, store)) ∧
    ((getMediaById store id).isSome → (updateMedia store id u su now).1 = true) ∧
    ((getMediaById store id).isSome → updateMedia store id {} none now = (true, store)) := by
  refine ⟨?_, ?_, ?_⟩
  · intro h
    unfold updateMedia
    rw [h]
  · intro h
    unfold updateMedia
    cases hg : getMediaById store id with
    | none => rw [hg] at h; simp at h
    | some item => simp
  · intro h
    cases hg : getMediaById store id with
    | none => rw [hg] at h; simp at h
    | some item =>
      unfold updateMedia
      rw [hg]
      simp [MediaUpdate.isEmpty]

/-- **C2.** In the preference analysis: a genre reaches the favorite-genres
ranking only when it occurs in at least 2 consumed items (stated under
duplicate-free per-item genre lists, which the JSON-encoded store format
satisfies); the ranking is capped at 5; the ranked entries are ordered by
average rating (rating sum / occurrence count) descending; on the spec's
threshold scenario Sci-Fi ranks while Drama (single occurrence, average 10)
is excluded; a creator ranks from a single appearance; and equal averages
keep discovery order. -/
theorem C2_genre_creator_ranking :
    (∀ (items : List MediaItem) (g : String), (∀ i ∈ items, (itemGenreTokens i).Nodup) →
        g ∈ (analyzeWatched items).favoriteGenres →
        2 ≤ items.countP (fun i => (itemGenreTokens i).contains g)) ∧
    (∀ items : List MediaItem, (analyzeWatched items).favoriteGenres.length ≤ 5) ∧
    (∀ items : List MediaItem,
        List.Chain' (fun p q => avgQ q.2 ≤ avgQ p.2) (favoriteGenreEntries items)) ∧
    (getPreferenceAnalysis thresholdStore none).favoriteGenres = ["Sci-Fi"] ∧
    "Drama" ∉ (getPreferenceAnalysis thresholdStore none).favoriteGenres ∧
    (getPreferenceAnalysis [soloDirector] none).favoriteCreators = ["Solo Director"] ∧
    (getPreferenceAnalysis tieStore none).favoriteGenres = ["Alpha", "Beta"] := by
  refine ⟨?_, ?_, ?_, by decide, by decide, by decide, by decide⟩
  · intro items g hnod hg
    unfold analyzeWatched at hg
    by_cases hlen : items.length = 0
    · rw [if_pos hlen] at hg
      simp at hg
    · rw [if_neg hlen] at hg
      replace hg : g ∈ (favoriteGenreEntries items).map (·.1) := hg
      obtain ⟨p, hp, hpg⟩ := List.mem_map.mp hg
      have hp1 : p ∈ jsSort avgBefore
          ((buildMap (tokenPairs items)).filter (fun q => 2 ≤ q.2.count)) := by
        unfold favoriteGenreEntries at hp
        exact List.mem_of_mem_take hp
      have hp2 := mem_jsSort hp1
      have hcount : 2 ≤ p.2.count := by simpa using List.of_mem_filter hp2
      have hpmem : p ∈ buildMap (tokenPairs items) := List.mem_of_mem_filter hp2
      have hspec := mem_buildMap_spec hpmem
      have hkc : 2 ≤ keyCount (tokenPairs items) p.1 := hspec.1 ▸ hcount
      calc 2 ≤ keyCount (tokenPairs items) g := by rw [← hpg]; exact hkc
        _ ≤ _ := keyCount_le_countP items g hnod
  · intro items
    unfold analyzeWatched
    by_cases hlen : items.length = 0
    · rw [if_pos hlen]
      simp
    · rw [if_neg hlen]
      show ((favoriteGenreEntries items).map (·.1)).length ≤ 5
      rw [List.length_map]
      unfold favoriteGenreEntries
      exact List.length_take_le 5 _
  · intro items
    unfold favoriteGenreEntries
    apply List.Chain'.take
    apply chain'_jsSort (P := fun p : String × Stats => 0 < p.2.count)
    · intro x y hx hy
      exact avgBefore_link x y hx hy
    · intro x hx
      have h2 : 2 ≤ x.2.count := by simpa using List.of_mem_filter hx
      omega

/-- Witness for C2: Sci-Fi ranks in the threshold scenario and indeed occurs
in two of its consumed items. -/
theorem C2_genre_creator_ranking_witness :
    2 ≤ thresholdStore.countP (fun i => (itemGenreTokens i).contains "Sci-Fi") :=
  C2_genre_creator_ranking.1 thresholdStore "Sci-Fi" (by decide) (by decide)

/-- **C8.** Every operation name in the dispatch table yields a text result
(`exceptOk = true`) for every store, argument bundle and injected internal
failure — no exception propagates; a name outside the table throws
(`Unknown tool`), and the resource-read path raises for every URI. -/
theorem C8_handlers_never_throw :
    (∀ (name : String) (store : Store) (dbErr : Option String) (a : CallArgs),
        name ∈ toolNames → exceptOk (callTool name store dbErr a) = true) ∧
    (∀ (name : String) (store : Store) (dbErr : Option String) (a : CallArgs),
        name ∉ toolNames → exceptOk (callTool name store dbErr a) = false) ∧
    (∀ uri : String, exceptOk (readResource uri) = false) := by
  refine ⟨?_, ?_, ?_⟩
  · intro name store dbErr a h
    simp only [toolNames, List.mem_cons, List.not_mem_nil, or_false] at h
    rcases h with rfl | rfl | rfl | rfl | rfl | rfl | rfl | rfl | rfl | rfl
    all_goals rfl
  · intro name store dbErr a h
    simp only [toolNames, List.mem_cons, List.not_mem_nil, or_false, not_or] at h
    obtain ⟨h1, h2, h3, h4, h5, h6, h7, h8, h9, h10⟩ := h
    simp [callTool, h1, h2, h3, h4, h5, h6, h7, h8, h9, h10, exceptOk]
  · intro uri
    unfold readResource
    by_cases h : uri = "movie-db://collection" ∨ uri = "movie-db://watchlist" ∨
        uri = "movie-db://preferences"
    · rw [if_pos h]
      rfl
    · rw [if_neg h]
      rfl

/-- Witness for C8: a listed tool never throws even under an injected
failure; an unknown name does throw. -/
theorem C8_handlers_never_throw_witness :
    exceptOk (callTool "mark_as_watched" [] (some "disk full") demoCallArgs) = true ∧
    exceptOk (callTool "bogus_tool" [] none demoCallArgs) = false :=
  ⟨C8_handlers_never_throw.1 "mark_as_watched" [] (some "disk full") demoCallArgs (by decide),
   C8_handlers_never_throw.2.1 "bogus_tool" [] none demoCallArgs (by decide)⟩

/-- Witness for C10: an absent id leaves the one-item store untouched with
`false`; the present id with an empty update returns `true` untouched. -/
theorem C10_update_absent_or_empty_witness :
    updateMedia [ranUnwatched] "zzz" {} none "T" = (false, [ranUnwatched]) ∧
    updateMedia [ranUnwatched] "2" {} none "T" = (true, [ranUnwatched]) :=
  ⟨(C10_update_absent_or_empty [ranUnwatched] "zzz" {} none "T").1 (by decide),
   (C10_update_absent_or_empty [ranUnwatched] "2" {} none "T").2.2 (by decide)⟩

end MediaRec
